import Mathlib

/-!
Verification development for the jira-mcp-server repository.

The development shallowly embeds the TypeScript sources:
- `src/jira-client.ts` (the HTTP client façade `JiraClient`),
- the tool handlers (`search-issues.ts`, `create-issue.ts`, `comments.ts`, ...),
- the dispatcher in `src/index.ts`.

JavaScript objects are modelled as association lists of `String × JValue`
(JavaScript objects have no duplicate keys; property assignment updates the
first matching key in place or appends). JavaScript string truthiness
(`if (s)` is false for `undefined` and `""`) is modelled explicitly.
HTTP traffic is modelled by a `ServerBehavior` record of endpoint functions
together with an explicit log of the `HttpCall`s a façade method issues;
a thrown exception is an `Except.error` carrying the error message.
-/

/-- Loosely typed JSON-like values, standing in for TypeScript `any`. -/
inductive JValue where
  | str (s : String)
  | num (n : Int)
  | bool (b : Bool)
  | obj (fields : List (String × JValue))
  | arr (elems : List JValue)
  | null
deriving Repr

/-- Property read on a JavaScript object (first binding of the key). -/
def getField (fs : List (String × JValue)) (k : String) : Option JValue :=
  (fs.find? (fun p => p.1 = k)).map (fun p => p.2)

/-- Property write on a JavaScript object: update the first binding of the
key in place, or append a new binding when the key is absent. -/
def setField : List (String × JValue) → String → JValue → List (String × JValue)
  | [], k, v => [(k, v)]
  | p :: rest, k, v => if p.1 = k then (k, v) :: rest else p :: setField rest k v

/-- `Object.assign(target, src)`: every binding of `src` is written into
`target` in order, later bindings overriding earlier ones. -/
def objAssign (target src : List (String × JValue)) : List (String × JValue) :=
  src.foldl (fun acc p => setField acc p.1 p.2) target

/-- The value of the last binding of a key in a binding list (the one that
wins under `Object.assign`). -/
def lastLookup : List (String × JValue) → String → Option JValue
  | [], _ => none
  | p :: rest, k =>
    match lastLookup rest k with
    | some v => some v
    | none => if p.1 = k then some p.2 else none

/-- Read attribute `attr` of the object stored under key `k` (models chains
such as `issue.fields.status.name`). -/
def fieldAttr (fs : List (String × JValue)) (k attr : String) : Option JValue :=
  match getField fs k with
  | some (JValue.obj o) => getField o attr
  | _ => none

/-- JavaScript truthiness of an optional string: `undefined` and `""` are
falsy, every other string is truthy. -/
def truthy : Option String → Bool
  | some s => !s.isEmpty
  | none => false

/-- The configuration stored by the `JiraClient` constructor
(`jira-client.ts` lines 15-35): the normalized base URL and the Basic-Auth
credential pair baked into the axios instance. Nothing else is ever stored. -/
structure JiraClientState where
  baseUrl : String
  username : String
  apiToken : String
deriving Repr, DecidableEq

/-- `baseUrl.replace(/\/$/, '')`: remove one trailing slash. -/
def stripTrailingSlash (s : String) : String :=
  if s.endsWith "/" then s.dropRight 1 else s

/-- The `JiraClient` constructor. -/
def mkJiraClient (baseUrl username apiToken : String) : JiraClientState :=
  { baseUrl := stripTrailingSlash baseUrl, username := username, apiToken := apiToken }

/-- Full request URL: the axios instance prefixes `<base-url>/rest/api/3`. -/
def apiUrl (c : JiraClientState) (path : String) : String :=
  c.baseUrl ++ "/rest/api/3" ++ path

inductive HttpMethod where
  | get
  | post
  | put
deriving Repr, DecidableEq

/-- One HTTP request as issued by the façade. -/
structure HttpCall where
  method : HttpMethod
  url : String
  params : List (String × String)
  body : Option JValue
deriving Repr

/-- Query-parameter lookup on a call. -/
def lookupParam (call : HttpCall) (k : String) : Option String :=
  (call.params.find? (fun p => p.1 = k)).map (fun p => p.2)

/-- A Jira issue as returned by the API (shape follows the handler usage and
the spec data model: key, id, self link, and a field bag). -/
structure JiraIssue where
  id : String
  key : String
  self : String
  fields : List (String × JValue)
deriving Repr

/-- Search result page: issues plus an optional total and exactly the two
possible pagination markers (`nextPageToken`, `isLast`). -/
structure JiraSearchResult where
  issues : List JiraIssue
  total : Option Nat
  nextPageToken : Option String
  isLast : Option Bool
deriving Repr

/-- A workflow transition (the parts the handlers read). -/
structure JiraTransition where
  id : String
  name : String
  toName : String
  toId : String
  toCategory : String
deriving Repr, DecidableEq

/-- Comment visibility restriction (`{ type, value }`). -/
structure CommentVisibility where
  type : String
  value : String
deriving Repr, DecidableEq

/-- A Jira comment (the parts the handlers read). -/
structure JiraComment where
  id : String
  authorDisplayName : String
  authorEmailAddress : Option String
  body : JValue
  created : String
  updated : String
  visibility : Option CommentVisibility
deriving Repr

/-- Error body of a failed Jira API response (`errorMessages` array plus an
`errors` record); `undefined` members are normalized to empty lists, matching
the `|| []` / `|| {}` fallbacks in `handleError`. -/
structure JiraErrorResponse where
  errorMessages : List String
  errors : List (String × String)
deriving Repr, DecidableEq

/-- Response body of `POST /issue`: `{ id, key, self }`. -/
structure CreatedRef where
  id : String
  key : String
  self : String
deriving Repr, DecidableEq

/-- Request body for adding a comment. -/
structure JiraAddCommentRequest where
  body : String
  visibility : Option CommentVisibility
deriving Repr, DecidableEq

/-- Request body for a transition. -/
structure JiraTransitionRequest where
  transitionId : String
  fields : Option (List (String × JValue))
deriving Repr

/-- What a façade call can catch: an axios failure (with an optional
response, itself carrying a status and an optional error body), or any other
thrown value (e.g. an already-converted `Error` rethrown from a nested
façade call). -/
inductive ClientFailure where
  | axiosFailure (message : String) (response : Option (Nat × Option JiraErrorResponse))
  | otherFailure (message : String)
deriving Repr

/-- `JiraClient.handleError` (`jira-client.ts` lines 40-59): the message of
the single error it raises. An axios failure with a response body yields
`Jira API Error (<status>): <messages joined by comma>`; an axios failure
without a response body yields `Jira API Error: <axios message>`; anything
else is rethrown unchanged. -/
def handleError : ClientFailure → String
  | ClientFailure.axiosFailure _ (some (status, some errorData)) =>
    let messages := errorData.errorMessages ++
      errorData.errors.map (fun p => p.1 ++ ": " ++ p.2)
    "Jira API Error (" ++ toString status ++ "): " ++ String.intercalate ", " messages
  | ClientFailure.axiosFailure message (some (_, none)) => "Jira API Error: " ++ message
  | ClientFailure.axiosFailure message none => "Jira API Error: " ++ message
  | ClientFailure.otherFailure message => message

/-- The remote Jira server, one endpoint function per operation. Each
function either returns the endpoint's typed payload or fails. -/
structure ServerBehavior where
  onSearch : HttpCall → Except ClientFailure JiraSearchResult
  onGetIssue : HttpCall → Except ClientFailure JiraIssue
  onCreateIssue : HttpCall → Except ClientFailure CreatedRef
  onUpdateIssue : HttpCall → Except ClientFailure Unit
  onGetTransitions : HttpCall → Except ClientFailure (List JiraTransition)
  onTransitionIssue : HttpCall → Except ClientFailure Unit
  onGetComments : HttpCall → Except ClientFailure (List JiraComment)
  onAddComment : HttpCall → Except ClientFailure JiraComment

/-- The default field list requested when the caller supplies none
(`jira-client.ts` line 86). -/
def defaultSearchFields : String :=
  "key,summary,status,issuetype,assignee,reporter,created,updated,priority,project"

/-- The GET `/search/jql` request built by `JiraClient.searchIssues`
(lines 72-89): `jql` and `maxResults` always; `nextPageToken` only when
truthy; `fields` joined by comma when a non-empty list was supplied, the
default field list otherwise. -/
def searchCall (c : JiraClientState) (jql : String) (maxResults : Nat)
    (nextPageToken : Option String) (fields : Option (List String)) : HttpCall :=
  let params := [("jql", jql), ("maxResults", toString maxResults)]
  let params :=
    match nextPageToken with
    | some t => if !t.isEmpty then params ++ [("nextPageToken", t)] else params
    | none => params
  let params := params ++ [("fields",
    match fields with
    | some fs => if fs.length > 0 then String.intercalate "," fs else defaultSearchFields
    | none => defaultSearchFields)]
  { method := HttpMethod.get, url := apiUrl c "/search/jql", params := params, body := none }

/-- `JiraClient.searchIssues`: one GET call; a failure is converted by
`handleError`. Returns the result together with the list of issued calls. -/
def searchIssues (c : JiraClientState) (srv : ServerBehavior) (jql : String)
    (maxResults : Nat) (nextPageToken : Option String) (fields : Option (List String)) :
    Except String JiraSearchResult × List HttpCall :=
  let call := searchCall c jql maxResults nextPageToken fields
  match srv.onSearch call with
  | Except.ok r => (Except.ok r, [call])
  | Except.error e => (Except.error (handleError e), [call])

/-- The GET `/issue/{key}` request built by `JiraClient.getIssue`
(lines 100-109). Note: `fields ? {fields: fields.join(',')} : {}` tests the
array's truthiness, and an empty array is truthy in JavaScript, so a
supplied empty list yields a `fields=` parameter with the empty string. -/
def getIssueCall (c : JiraClientState) (issueKey : String)
    (fields : Option (List String)) : HttpCall :=
  let params :=
    match fields with
    | some fs => [("fields", String.intercalate "," fs)]
    | none => []
  { method := HttpMethod.get, url := apiUrl c ("/issue/" ++ issueKey),
    params := params, body := none }

/-- `JiraClient.getIssue`: one GET call. -/
def getIssue (c : JiraClientState) (srv : ServerBehavior) (issueKey : String)
    (fields : Option (List String)) : Except String JiraIssue × List HttpCall :=
  let call := getIssueCall c issueKey fields
  match srv.onGetIssue call with
  | Except.ok issue => (Except.ok issue, [call])
  | Except.error e => (Except.error (handleError e), [call])

/-- The POST `/issue` request built by `JiraClient.createIssue` (line 116):
the body is `{ fields: ... }`. -/
def createCall (c : JiraClientState) (reqFields : List (String × JValue)) : HttpCall :=
  { method := HttpMethod.post, url := apiUrl c "/issue", params := [],
    body := some (JValue.obj [("fields", JValue.obj reqFields)]) }

/-- `JiraClient.createIssue` (lines 114-123): POST the create request, then
fetch the full issue for the returned key via `getIssue`. An error thrown by
the nested `getIssue` is no longer an axios error, so the outer
`handleError` rethrows it unchanged. -/
def createIssue (c : JiraClientState) (srv : ServerBehavior)
    (reqFields : List (String × JValue)) : Except String JiraIssue × List HttpCall :=
  let call := createCall c reqFields
  match srv.onCreateIssue call with
  | Except.ok created =>
    let fetch := getIssue c srv created.key none
    (fetch.1, call :: fetch.2)
  | Except.error e => (Except.error (handleError e), [call])

/-- The PUT `/issue/{key}` request built by `JiraClient.updateIssue`. -/
def updateCall (c : JiraClientState) (issueKey : String)
    (reqFields : List (String × JValue)) : HttpCall :=
  { method := HttpMethod.put, url := apiUrl c ("/issue/" ++ issueKey), params := [],
    body := some (JValue.obj [("fields", JValue.obj reqFields)]) }

/-- `JiraClient.updateIssue`: one PUT call. -/
def updateIssue (c : JiraClientState) (srv : ServerBehavior) (issueKey : String)
    (reqFields : List (String × JValue)) : Except String Unit × List HttpCall :=
  let call := updateCall c issueKey reqFields
  match srv.onUpdateIssue call with
  | Except.ok _ => (Except.ok (), [call])
  | Except.error e => (Except.error (handleError e), [call])

/-- The GET `/issue/{key}/transitions` request. -/
def transitionsCall (c : JiraClientState) (issueKey : String) : HttpCall :=
  { method := HttpMethod.get, url := apiUrl c ("/issue/" ++ issueKey ++ "/transitions"),
    params := [], body := none }

/-- `JiraClient.getTransitions`: one GET call. -/
def getTransitions (c : JiraClientState) (srv : ServerBehavior) (issueKey : String) :
    Except String (List JiraTransition) × List HttpCall :=
  let call := transitionsCall c issueKey
  match srv.onGetTransitions call with
  | Except.ok ts => (Except.ok ts, [call])
  | Except.error e => (Except.error (handleError e), [call])

/-- Body of a transition request: `{ transition: { id }, fields? }`. -/
def transitionRequestBody (req : JiraTransitionRequest) : JValue :=
  JValue.obj ([("transition", JValue.obj [("id", JValue.str req.transitionId)])] ++
    (match req.fields with
     | some fs => [("fields", JValue.obj fs)]
     | none => []))

/-- The POST `/issue/{key}/transitions` request. -/
def transitionCall (c : JiraClientState) (issueKey : String)
    (req : JiraTransitionRequest) : HttpCall :=
  { method := HttpMethod.post, url := apiUrl c ("/issue/" ++ issueKey ++ "/transitions"),
    params := [], body := some (transitionRequestBody req) }

/-- `JiraClient.transitionIssue`: one POST call. -/
def transitionIssue (c : JiraClientState) (srv : ServerBehavior) (issueKey : String)
    (req : JiraTransitionRequest) : Except String Unit × List HttpCall :=
  let call := transitionCall c issueKey req
  match srv.onTransitionIssue call with
  | Except.ok _ => (Except.ok (), [call])
  | Except.error e => (Except.error (handleError e), [call])

/-- The GET `/issue/{key}/comment` request. -/
def commentsCall (c : JiraClientState) (issueKey : String) : HttpCall :=
  { method := HttpMethod.get, url := apiUrl c ("/issue/" ++ issueKey ++ "/comment"),
    params := [], body := none }

/-- `JiraClient.getComments`: one GET call. -/
def getComments (c : JiraClientState) (srv : ServerBehavior) (issueKey : String) :
    Except String (List JiraComment) × List HttpCall :=
  let call := commentsCall c issueKey
  match srv.onGetComments call with
  | Except.ok cs => (Except.ok cs, [call])
  | Except.error e => (Except.error (handleError e), [call])

/-- Body of an add-comment request: `{ body, visibility? }`. -/
def addCommentRequestBody (req : JiraAddCommentRequest) : JValue :=
  JValue.obj ([("body", JValue.str req.body)] ++
    (match req.visibility with
     | some v => [("visibility", JValue.obj
         [("type", JValue.str v.type), ("value", JValue.str v.value)])]
     | none => []))

/-- The POST `/issue/{key}/comment` request. -/
def addCommentCall (c : JiraClientState) (issueKey : String)
    (req : JiraAddCommentRequest) : HttpCall :=
  { method := HttpMethod.post, url := apiUrl c ("/issue/" ++ issueKey ++ "/comment"),
    params := [], body := some (addCommentRequestBody req) }

/-- `JiraClient.addComment`: one POST call. -/
def addComment (c : JiraClientState) (srv : ServerBehavior) (issueKey : String)
    (req : JiraAddCommentRequest) : Except String JiraComment × List HttpCall :=
  let call := addCommentCall c issueKey req
  match srv.onAddComment call with
  | Except.ok cm => (Except.ok cm, [call])
  | Except.error e => (Except.error (handleError e), [call])

/-- Arguments of the `jira_search` tool (`search-issues.ts` lines 4-9).
The dispatcher casts the raw arguments without running the zod schema, so
every field except `jql` may be absent. -/
structure SearchIssuesArgs where
  jql : String
  maxResults : Option Nat
  nextPageToken : Option String
  fields : Option (List String)
deriving Repr

/-- The per-issue projection in the search response (lines 52-61). -/
structure SearchIssueView where
  key : String
  summary : Option JValue
  status : Option JValue
  issueType : Option JValue
  priority : Option JValue
  assignee : Option JValue
  created : Option JValue
  updated : Option JValue
deriving Repr

def projectSearchIssue (i : JiraIssue) : SearchIssueView :=
  { key := i.key
    summary := getField i.fields "summary"
    status := fieldAttr i.fields "status" "name"
    issueType := fieldAttr i.fields "issuetype" "name"
    priority := fieldAttr i.fields "priority" "name"
    assignee := fieldAttr i.fields "assignee" "displayName"
    created := getField i.fields "created"
    updated := getField i.fields "updated" }

/-- The projected search response (`search-issues.ts` lines 50-76); `none`
models an absent key. -/
structure SearchResponse where
  issueCount : Nat
  issues : List SearchIssueView
  total : Option Nat
  nextPageToken : Option String
  hasMoreResults : Option Bool
  isLast : Option Bool
deriving Repr

/-- Response projection of `handleSearchIssues`: the issue list and `total`
(copied only when defined), then the pagination block: a truthy
`nextPageToken` is copied along with `hasMoreResults: true`; otherwise a
defined `isLast` is copied along with `hasMoreResults: !isLast`; otherwise
no pagination key is set. -/
def buildSearchResponse (result : JiraSearchResult) : SearchResponse :=
  let base : SearchResponse :=
    { issueCount := result.issues.length
      issues := result.issues.map projectSearchIssue
      total := result.total
      nextPageToken := none
      hasMoreResults := none
      isLast := none }
  if truthy result.nextPageToken then
    { base with nextPageToken := result.nextPageToken, hasMoreResults := some true }
  else
    match result.isLast with
    | some b => { base with isLast := some b, hasMoreResults := some (!b) }
    | none => base

/-- `handleSearchIssues` (`search-issues.ts` lines 42-86): call the façade
(`maxResults` falls back to the façade default of 50 when absent) and
project the result. -/
def handleSearchIssues (args : SearchIssuesArgs) (c : JiraClientState)
    (srv : ServerBehavior) : Except String SearchResponse × List HttpCall :=
  let r := searchIssues c srv args.jql (args.maxResults.getD 50) args.nextPageToken args.fields
  (r.1.map buildSearchResponse, r.2)

/-- Arguments of the `jira_create_issue` tool (`create-issue.ts` lines 5-15). -/
structure CreateIssueArgs where
  projectKey : String
  issueType : String
  summary : String
  description : Option String
  priority : Option String
  assignee : Option String
  labels : Option (List String)
  components : Option (List String)
  customFields : Option (List (String × JValue))
deriving Repr

/-- The assignee heuristic (`create-issue.ts` lines 91-93): a string
containing `@` or longer than 20 characters is sent as `accountId`,
anything else as the legacy `name`. -/
def assigneeField (a : String) : JValue :=
  if a.data.contains '@' || a.length > 20 then JValue.obj [("accountId", JValue.str a)]
  else JValue.obj [("name", JValue.str a)]

/-- One conditional property write guarded by string truthiness
(`if (args.x) request.fields.x = f(args.x)`). -/
def optSetStr (fs : List (String × JValue)) (k : String) (v : Option String)
    (f : String → JValue) : List (String × JValue) :=
  match v with
  | some s => if !s.isEmpty then setField fs k (f s) else fs
  | none => fs

/-- One conditional property write guarded by `arr && arr.length > 0`. -/
def optSetList (fs : List (String × JValue)) (k : String) (v : Option (List String))
    (f : List String → JValue) : List (String × JValue) :=
  match v with
  | some xs => if xs.length > 0 then setField fs k (f xs) else fs
  | none => fs

/-- The `fields` object of the create request before the custom-field merge
(`create-issue.ts` lines 69-102): the three required fields, then the
optional fields in source order, each guarded by its truthiness test. -/
def builtinCreateFields (args : CreateIssueArgs) : List (String × JValue) :=
  let base : List (String × JValue) :=
    [("project", JValue.obj [("key", JValue.str args.projectKey)]),
     ("summary", JValue.str args.summary),
     ("issuetype", JValue.obj [("name", JValue.str args.issueType)])]
  let fs := optSetStr base "description" args.description JValue.str
  let fs := optSetStr fs "priority" args.priority
    (fun p => JValue.obj [("name", JValue.str p)])
  let fs := optSetStr fs "assignee" args.assignee assigneeField
  let fs := optSetList fs "labels" args.labels
    (fun ls => JValue.arr (ls.map JValue.str))
  optSetList fs "components" args.components
    (fun cs => JValue.arr (cs.map (fun n => JValue.obj [("name", JValue.str n)])))

/-- The full `fields` object of the create request (`create-issue.ts`
lines 69-106): the built-in fields, and finally
`Object.assign(request.fields, args.customFields)` when `customFields` is
present (a JavaScript object is truthy even when empty). -/
def buildCreateFields (args : CreateIssueArgs) : List (String × JValue) :=
  match args.customFields with
  | some cf => objAssign (builtinCreateFields args) cf
  | none => builtinCreateFields args

/-- The issue projection in the create response (`create-issue.ts`
lines 116-123): key, id, self, summary, status name, issue type name. -/
structure CreateIssueResponse where
  key : String
  id : String
  self : String
  summary : Option JValue
  status : Option JValue
  issueType : Option JValue
deriving Repr

def projectCreatedIssue (issue : JiraIssue) : CreateIssueResponse :=
  { key := issue.key
    id := issue.id
    self := issue.self
    summary := getField issue.fields "summary"
    status := fieldAttr issue.fields "status" "name"
    issueType := fieldAttr issue.fields "issuetype" "name" }

/-- `handleCreateIssue` (`create-issue.ts` lines 68-128): build the request
fields, call the façade create (which itself creates then fetches), and
project the fetched issue. -/
def handleCreateIssue (args : CreateIssueArgs) (c : JiraClientState)
    (srv : ServerBehavior) : Except String CreateIssueResponse × List HttpCall :=
  let r := createIssue c srv (buildCreateFields args)
  (r.1.map projectCreatedIssue, r.2)

/-- Arguments of the `jira_add_comment` tool (`comments.ts` lines 53-58). -/
structure AddCommentArgs where
  issueKey : String
  body : String
  visibilityType : Option String
  visibilityValue : Option String
deriving Repr, DecidableEq

/-- The zod schema `addCommentSchema` (`comments.ts` lines 53-58) applied to
well-typed arguments: `issueKey` and `body` are required strings (guaranteed
by the argument type), `visibilityType` must be `group` or `role` when
present, `visibilityValue` is an unconstrained optional string. The schema
contains no rule linking the two visibility fields. -/
def addCommentSchemaAccepts (args : AddCommentArgs) : Bool :=
  match args.visibilityType with
  | some t => t = "group" || t = "role"
  | none => true

/-- Request construction in `handleAddComment` (`comments.ts` lines 90-100):
the visibility block is attached only when both `visibilityType` and
`visibilityValue` are truthy; otherwise it is silently omitted. -/
def buildAddCommentRequest (args : AddCommentArgs) : JiraAddCommentRequest :=
  match args.visibilityType, args.visibilityValue with
  | some t, some v =>
    if !t.isEmpty && !v.isEmpty then
      { body := args.body, visibility := some { type := t, value := v } }
    else
      { body := args.body, visibility := none }
  | _, _ => { body := args.body, visibility := none }

/-- The comment projection in the add-comment response (`comments.ts`
lines 111-118). -/
structure AddCommentResponse where
  id : String
  authorDisplayName : String
  body : JValue
  created : String
deriving Repr

def projectAddedComment (cm : JiraComment) : AddCommentResponse :=
  { id := cm.id
    authorDisplayName := cm.authorDisplayName
    body := cm.body
    created := cm.created }

/-- `handleAddComment` (`comments.ts` lines 90-123): build the request and
call the façade; no validation against `addCommentSchema` happens anywhere
on this path (the dispatcher casts the raw arguments). -/
def handleAddComment (args : AddCommentArgs) (c : JiraClientState)
    (srv : ServerBehavior) : Except String AddCommentResponse × List HttpCall :=
  let req := buildAddCommentRequest args
  let r := addComment c srv args.issueKey req
  (r.1.map projectAddedComment, r.2)

/-- One content block of an MCP tool response; the JSON text payload is
modelled structurally as a `JValue` rather than as a serialized string. -/
structure ToolContent where
  type : String
  payload : JValue
deriving Repr

/-- The response envelope returned to the MCP caller. -/
structure ToolResponse where
  content : List ToolContent
  isError : Bool
deriving Repr

/-- The structured error envelope built by the dispatcher's catch block
(`index.ts` lines 111-125): `{ error: true, message }` with `isError` set. -/
def errorEnvelope (msg : String) : ToolResponse :=
  { content := [ToolContent.mk "text"
      (JValue.obj [("error", JValue.bool true), ("message", JValue.str msg)])]
    isError := true }

/-- The eight handlers the dispatcher can invoke, abstracted over their
effects: each takes the raw (cast, unvalidated) arguments and either
returns a response or throws. -/
structure HandlerEnv where
  search : JValue → Except String ToolResponse
  getIssue : JValue → Except String ToolResponse
  createIssue : JValue → Except String ToolResponse
  updateIssue : JValue → Except String ToolResponse
  getTransitions : JValue → Except String ToolResponse
  transitionIssue : JValue → Except String ToolResponse
  getComments : JValue → Except String ToolResponse
  addComment : JValue → Except String ToolResponse

/-- The declared tool names registered in `index.ts`. -/
def toolNames : List String :=
  ["jira_search", "jira_get_issue", "jira_create_issue", "jira_update_issue",
   "jira_get_transitions", "jira_transition_issue", "jira_get_comments",
   "jira_add_comment"]

/-- The `switch (name)` inside the dispatcher's try block (`index.ts`
lines 83-110): invoke the handler registered under the declared name, or
throw `Unknown tool: <name>`. -/
def dispatchSwitch (env : HandlerEnv) (name : String) (args : JValue) :
    Except String ToolResponse :=
  if name = "jira_search" then env.search args
  else if name = "jira_get_issue" then env.getIssue args
  else if name = "jira_create_issue" then env.createIssue args
  else if name = "jira_update_issue" then env.updateIssue args
  else if name = "jira_get_transitions" then env.getTransitions args
  else if name = "jira_transition_issue" then env.transitionIssue args
  else if name = "jira_get_comments" then env.getComments args
  else if name = "jira_add_comment" then env.addComment args
  else Except.error ("Unknown tool: " ++ name)

/-- The `CallToolRequestSchema` handler (`index.ts` lines 79-126): run the
switch inside try/catch; a successful handler result is returned verbatim,
any thrown error is converted into the structured error envelope. The
function is total: no exception escapes. -/
def handleCallTool (env : HandlerEnv) (name : String) (args : JValue) : ToolResponse :=
  match dispatchSwitch env name args with
  | Except.ok r => r
  | Except.error msg => errorEnvelope msg

/-- One façade operation together with its arguments (the surface of
`JiraClient`). -/
inductive FacadeOp where
  | search (jql : String) (maxResults : Nat) (nextPageToken : Option String)
      (fields : Option (List String))
  | get (issueKey : String) (fields : Option (List String))
  | create (reqFields : List (String × JValue))
  | update (issueKey : String) (reqFields : List (String × JValue))
  | transitions (issueKey : String)
  | transition (issueKey : String) (req : JiraTransitionRequest)
  | comments (issueKey : String)
  | comment (issueKey : String) (req : JiraAddCommentRequest)

/-- The result payload of a façade operation. -/
inductive FacadeOut where
  | searchResult (r : JiraSearchResult)
  | issue (i : JiraIssue)
  | unit
  | transitionList (ts : List JiraTransition)
  | commentList (cs : List JiraComment)
  | comment (cm : JiraComment)

/-- One façade operation with the client state threaded through explicitly.
Every `JiraClient` method body reads `this.client`/`this.baseUrl` but
contains no assignment to any field of `this`, so the state coming out of a
method is the state that went in; this definition mirrors that absence of
writes. -/
def facadeStep (srv : ServerBehavior) (c : JiraClientState) (op : FacadeOp) :
    (Except String FacadeOut × List HttpCall) × JiraClientState :=
  match op with
  | FacadeOp.search jql mr tok fs =>
    let r := searchIssues c srv jql mr tok fs
    ((r.1.map FacadeOut.searchResult, r.2), c)
  | FacadeOp.get issueKey fs =>
    let r := getIssue c srv issueKey fs
    ((r.1.map FacadeOut.issue, r.2), c)
  | FacadeOp.create reqFields =>
    let r := createIssue c srv reqFields
    ((r.1.map FacadeOut.issue, r.2), c)
  | FacadeOp.update issueKey reqFields =>
    let r := updateIssue c srv issueKey reqFields
    ((r.1.map (fun _ => FacadeOut.unit), r.2), c)
  | FacadeOp.transitions issueKey =>
    let r := getTransitions c srv issueKey
    ((r.1.map FacadeOut.transitionList, r.2), c)
  | FacadeOp.transition issueKey req =>
    let r := transitionIssue c srv issueKey req
    ((r.1.map (fun _ => FacadeOut.unit), r.2), c)
  | FacadeOp.comments issueKey =>
    let r := getComments c srv issueKey
    ((r.1.map FacadeOut.commentList, r.2), c)
  | FacadeOp.comment issueKey req =>
    let r := addComment c srv issueKey req
    ((r.1.map FacadeOut.comment, r.2), c)

/-- Sequential execution of façade operations, threading the client state
from call to call. -/
def runOps (srv : ServerBehavior) (c : JiraClientState) :
    List FacadeOp → List (Except String FacadeOut × List HttpCall) × JiraClientState
  | [] => ([], c)
  | op :: rest =>
    let s := facadeStep srv c op
    let r := runOps srv s.2 rest
    (s.1 :: r.1, r.2)

/-- An endpoint a test server does not expect to be called. -/
def unusedEndpoint {α : Type} : HttpCall → Except ClientFailure α :=
  fun _ => Except.error (ClientFailure.otherFailure "unused endpoint")

/-- A server on which every endpoint fails; concrete servers below override
the endpoints they exercise. -/
def stubServer : ServerBehavior :=
  { onSearch := unusedEndpoint
    onGetIssue := unusedEndpoint
    onCreateIssue := unusedEndpoint
    onUpdateIssue := unusedEndpoint
    onGetTransitions := unusedEndpoint
    onTransitionIssue := unusedEndpoint
    onGetComments := unusedEndpoint
    onAddComment := unusedEndpoint }

/-- A concrete client configuration. -/
def demoClient : JiraClientState :=
  mkJiraClient "https://jira.example.com" "alice" "token123"

/-- Concrete create-issue arguments whose `customFields` override the
built-in `summary` field. -/
def createArgsOverride : CreateIssueArgs :=
  { projectKey := "PROJ"
    issueType := "Task"
    summary := "Original summary"
    description := none
    priority := none
    assignee := none
    labels := none
    components := none
    customFields := some [("summary", JValue.str "Overridden title")] }

/-- Reference returned by the concrete create endpoint. -/
def demoCreatedRef : CreatedRef :=
  { id := "10001", key := "PROJ-7"
    self := "https://jira.example.com/rest/api/3/issue/10001" }

/-- The issue the concrete server hands back for the confirmation fetch:
exactly the fields that were posted for `createArgsOverride`. -/
def demoCreatedIssue : JiraIssue :=
  { id := "10001", key := "PROJ-7"
    self := "https://jira.example.com/rest/api/3/issue/10001"
    fields := buildCreateFields createArgsOverride }

/-- A server that accepts the create call and faithfully returns the created
issue on the confirmation fetch. -/
def srvCreateOverride : ServerBehavior :=
  { stubServer with
    onCreateIssue := fun _ => Except.ok demoCreatedRef
    onGetIssue := fun _ => Except.ok demoCreatedIssue }

/-- Add-comment arguments with a visibility type but no visibility value. -/
def addArgsNoValue : AddCommentArgs :=
  { issueKey := "PROJ-1", body := "Please review"
    visibilityType := some "role", visibilityValue := none }

/-- The comment the concrete server returns for an add-comment call. -/
def demoComment : JiraComment :=
  { id := "20001", authorDisplayName := "Alice", authorEmailAddress := none
    body := JValue.str "Please review"
    created := "2026-01-01T00:00:00Z", updated := "2026-01-01T00:00:00Z"
    visibility := none }

/-- A server whose add-comment endpoint succeeds. -/
def srvAcceptComment : ServerBehavior :=
  { stubServer with onAddComment := fun _ => Except.ok demoComment }

/-- A search result whose continuation token is present but empty (a shape
the façade type permits, since the token is passed through verbatim). -/
def emptyTokenResult : JiraSearchResult :=
  { issues := [], total := none, nextPageToken := some "", isLast := none }

/-- A search result carrying a nonempty continuation token. -/
def tokenResult : JiraSearchResult :=
  { issues := [], total := some 120, nextPageToken := some "CAEaAggD", isLast := none }

/-- A search result carrying only the is-last-page marker. -/
def lastPageResult : JiraSearchResult :=
  { issues := [], total := none, nextPageToken := none, isLast := some false }

/-- A pure transport failure: axios raised without any HTTP response. -/
def transportFailure : ClientFailure :=
  ClientFailure.axiosFailure "timeout of 30000ms exceeded" none

/-- Create-issue arguments supplying an empty assignee string. -/
def createArgsEmptyAssignee : CreateIssueArgs :=
  { projectKey := "PROJ"
    issueType := "Bug"
    summary := "Broken build"
    description := none
    priority := none
    assignee := some ""
    labels := none
    components := none
    customFields := none }

/-- A successful canned tool response for exercising the dispatcher. -/
def okToolResponse : ToolResponse :=
  { content := [ToolContent.mk "text" (JValue.str "ok")], isError := false }

/-- A handler environment in which every handler succeeds except the
add-comment handler, which throws. -/
def demoEnv : HandlerEnv :=
  { search := fun _ => Except.ok okToolResponse
    getIssue := fun _ => Except.ok okToolResponse
    createIssue := fun _ => Except.ok okToolResponse
    updateIssue := fun _ => Except.ok okToolResponse
    getTransitions := fun _ => Except.ok okToolResponse
    transitionIssue := fun _ => Except.ok okToolResponse
    getComments := fun _ => Except.ok okToolResponse
    addComment := fun _ => Except.error "boom" }

/-- The HTTP status attached to a failure, when any response arrived. -/
def failureStatus : ClientFailure → Option Nat
  | ClientFailure.axiosFailure _ (some (st, _)) => some st
  | _ => none

/-- The server-supplied error messages of a failure, in the order
`handleError` concatenates them. -/
def serverMessages : ClientFailure → List String
  | ClientFailure.axiosFailure _ (some (_, some d)) =>
    d.errorMessages ++ d.errors.map (fun p => p.1 ++ ": " ++ p.2)
  | _ => []

/-- Substring test (used to state that a message carries a status). -/
def containsStr (s pat : String) : Bool :=
  pat.isEmpty || (s.splitOn pat).length ≥ 2

/-- A non-2xx failure carrying a response body with both kinds of
server-supplied messages. -/
def demoApiFailure : ClientFailure :=
  ClientFailure.axiosFailure "Request failed with status code 400"
    (some (400, some { errorMessages := ["The request is invalid"]
                       errors := [("project", "project is required")] }))

/-- A server whose search endpoint fails with `demoApiFailure`. -/
def srvSearchFail : ServerBehavior :=
  { stubServer with onSearch := fun _ => Except.error demoApiFailure }

/-- Create-issue arguments whose assignee looks like a cloud account id
(24 characters, no `@`). -/
def createArgsAccountId : CreateIssueArgs :=
  { projectKey := "PROJ"
    issueType := "Task"
    summary := "Assign to account id"
    description := none
    priority := none
    assignee := some "5b10ac8d82e05b22cc7d4ef5"
    labels := none
    components := none
    customFields := none }

theorem getField_setField_self (fs : List (String × JValue)) (k : String) (v : JValue) :
    getField (setField fs k v) k = some v := by
  induction fs with
  | nil => simp [setField, getField]
  | cons p rest ih =>
    by_cases h : p.1 = k
    · simp [setField, h, getField]
    · simpa [setField, h, getField] using ih

theorem getField_setField_ne (fs : List (String × JValue)) (k k' : String) (v : JValue)
    (h : k' ≠ k) : getField (setField fs k v) k' = getField fs k' := by
  induction fs with
  | nil => simp [setField, getField, Ne.symm h]
  | cons p rest ih =>
    by_cases hp : p.1 = k
    · simp [setField, hp, getField, Ne.symm h, hp ▸ Ne.symm h]
    · by_cases hp' : p.1 = k'
      · simp [setField, hp, getField, hp', h]
      · simpa [setField, hp, getField, hp'] using ih

theorem lastLookup_eq_none (s : List (String × JValue)) (k : String)
    (h : lastLookup s k = none) : ∀ p ∈ s, p.1 ≠ k := by
  induction s with
  | nil => simp
  | cons p rest ih =>
    intro q hq
    simp only [lastLookup] at h
    rcases hrest : lastLookup rest k with _ | w
    · rw [hrest] at h
      rcases List.mem_cons.mp hq with hq1 | hq1
      · subst hq1
        by_cases hk : q.1 = k
        · simp [hk] at h
        · exact hk
      · exact ih hrest q hq1
    · rw [hrest] at h
      exact absurd h (by simp)

theorem getField_objAssign_notMem (t s : List (String × JValue)) (k : String)
    (h : ∀ p ∈ s, p.1 ≠ k) : getField (objAssign t s) k = getField t k := by
  induction s generalizing t with
  | nil => rfl
  | cons p rest ih =>
    have hstep : objAssign t (p :: rest) = objAssign (setField t p.1 p.2) rest := rfl
    rw [hstep, ih (setField t p.1 p.2) (fun q hq => h q (List.mem_cons_of_mem p hq)),
      getField_setField_ne _ _ _ _ (Ne.symm (h p (List.mem_cons_self p rest)))]

theorem getField_objAssign_last (t s : List (String × JValue)) (k : String) (v : JValue)
    (h : lastLookup s k = some v) : getField (objAssign t s) k = some v := by
  induction s generalizing t with
  | nil => exact absurd h (by simp [lastLookup])
  | cons p rest ih =>
    have hstep : objAssign t (p :: rest) = objAssign (setField t p.1 p.2) rest := rfl
    simp only [lastLookup] at h
    rcases hrest : lastLookup rest k with _ | w
    · rw [hrest] at h
      by_cases hk : p.1 = k
      · simp only [hk, if_pos rfl] at h
        rw [hstep, getField_objAssign_notMem _ _ _ (lastLookup_eq_none rest k hrest), hk,
          getField_setField_self]
        exact congrArg some (Option.some.inj h)
      · simp [hk] at h
    · rw [hrest] at h
      rw [hstep, ih _ (hrest.trans (congrArg some (Option.some.inj h)))]

theorem getField_optSetStr_ne (fs : List (String × JValue)) (k k' : String)
    (v : Option String) (f : String → JValue) (h : k' ≠ k) :
    getField (optSetStr fs k v f) k' = getField fs k' := by
  cases v with
  | none => rfl
  | some s =>
    simp only [optSetStr]
    split
    · exact getField_setField_ne _ _ _ _ h
    · rfl

theorem getField_optSetList_ne (fs : List (String × JValue)) (k k' : String)
    (v : Option (List String)) (f : List String → JValue) (h : k' ≠ k) :
    getField (optSetList fs k v f) k' = getField fs k' := by
  cases v with
  | none => rfl
  | some xs =>
    simp only [optSetList]
    split
    · exact getField_setField_ne _ _ _ _ h
    · rfl

theorem builtin_summary (args : CreateIssueArgs) :
    getField (builtinCreateFields args) "summary" = some (JValue.str args.summary) := by
  unfold builtinCreateFields
  rw [getField_optSetList_ne _ _ _ _ _ (by decide),
    getField_optSetList_ne _ _ _ _ _ (by decide),
    getField_optSetStr_ne _ _ _ _ _ (by decide),
    getField_optSetStr_ne _ _ _ _ _ (by decide),
    getField_optSetStr_ne _ _ _ _ _ (by decide)]
  simp [getField]

theorem builtin_project (args : CreateIssueArgs) :
    getField (builtinCreateFields args) "project" =
      some (JValue.obj [("key", JValue.str args.projectKey)]) := by
  unfold builtinCreateFields
  rw [getField_optSetList_ne _ _ _ _ _ (by decide),
    getField_optSetList_ne _ _ _ _ _ (by decide),
    getField_optSetStr_ne _ _ _ _ _ (by decide),
    getField_optSetStr_ne _ _ _ _ _ (by decide),
    getField_optSetStr_ne _ _ _ _ _ (by decide)]
  simp [getField]

theorem builtin_assignee (args : CreateIssueArgs) (a : String)
    (ha : args.assignee = some a) (hne : ¬a.isEmpty) :
    getField (builtinCreateFields args) "assignee" = some (assigneeField a) := by
  unfold builtinCreateFields
  rw [getField_optSetList_ne _ _ _ _ _ (by decide),
    getField_optSetList_ne _ _ _ _ _ (by decide)]
  simp only [optSetStr, ha, hne, Bool.not_false, if_pos]
  exact getField_setField_self _ _ _

/-- Claim C1, counterexample: a façade result that contains a continuation
token which is the empty string. The claim as stated requires the projected
response to carry that token and report `hasMoreResults` as true, but the
handler tests the token with JavaScript truthiness, treats the empty string
as absent, and emits no pagination signal at all. -/
theorem search_pagination_empty_token :
    emptyTokenResult.nextPageToken = some "" ∧
    (buildSearchResponse emptyTokenResult).nextPageToken = none ∧
    (buildSearchResponse emptyTokenResult).hasMoreResults = none ∧
    ¬((buildSearchResponse emptyTokenResult).nextPageToken = some "" ∧
      (buildSearchResponse emptyTokenResult).hasMoreResults = some true) := by
  refine ⟨rfl, rfl, rfl, ?_⟩
  rintro ⟨h, -⟩
  rw [show (buildSearchResponse emptyTokenResult).nextPageToken = none from rfl] at h
  exact Option.noConfusion h

/-- Claim C1 (amended): the pagination signal of the projected search
response follows the stated policy with presence of the continuation token
read as JavaScript truthiness (a nonempty token): a truthy token is copied
with `hasMoreResults` true; otherwise a defined is-last-page boolean is
copied with `hasMoreResults` its negation; otherwise no pagination signal is
set. The projected response is exactly what the search handler returns on a
successful façade call. -/
theorem search_pagination_policy (r : JiraSearchResult) :
    (truthy r.nextPageToken = true →
      (buildSearchResponse r).nextPageToken = r.nextPageToken ∧
      (buildSearchResponse r).hasMoreResults = some true ∧
      (buildSearchResponse r).isLast = none) ∧
    (truthy r.nextPageToken = false → ∀ b, r.isLast = some b →
      (buildSearchResponse r).nextPageToken = none ∧
      (buildSearchResponse r).isLast = some b ∧
      (buildSearchResponse r).hasMoreResults = some (!b)) ∧
    (truthy r.nextPageToken = false → r.isLast = none →
      (buildSearchResponse r).nextPageToken = none ∧
      (buildSearchResponse r).hasMoreResults = none ∧
      (buildSearchResponse r).isLast = none) ∧
    (∀ (args : SearchIssuesArgs) (c : JiraClientState) (srv : ServerBehavior),
      srv.onSearch (searchCall c args.jql (args.maxResults.getD 50)
        args.nextPageToken args.fields) = Except.ok r →
      (handleSearchIssues args c srv).1 = Except.ok (buildSearchResponse r)) := by
  refine ⟨?_, ?_, ?_, ?_⟩
  · intro h
    simp [buildSearchResponse, h]
  · intro h b hb
    simp [buildSearchResponse, h, hb]
  · intro h hb
    simp [buildSearchResponse, h, hb]
  · intro args c srv h
    simp [handleSearchIssues, searchIssues, h, Except.map]

/-- Claim C1 witness: the policy evaluated on a page with a nonempty token
and on a page with only the is-last-page marker. -/
theorem search_pagination_policy_witness :
    ((buildSearchResponse tokenResult).nextPageToken = tokenResult.nextPageToken ∧
      (buildSearchResponse tokenResult).hasMoreResults = some true ∧
      (buildSearchResponse tokenResult).isLast = none) ∧
    ((buildSearchResponse lastPageResult).nextPageToken = none ∧
      (buildSearchResponse lastPageResult).isLast = some false ∧
      (buildSearchResponse lastPageResult).hasMoreResults = some (!false)) :=
  ⟨(search_pagination_policy tokenResult).1 (by decide),
   (search_pagination_policy lastPageResult).2.1 (by decide) false rfl⟩

/-- Claim C2: evaluation at the failing input. Add-comment arguments with
`visibilityType` present (`role`) and `visibilityValue` absent are accepted
by the schema (which carries no rule linking the two fields, and is in any
case never invoked by the dispatcher), the handler silently drops the
visibility restriction from the request, and the network call is issued:
the façade logs exactly one POST carrying a request without visibility. -/
theorem add_comment_missing_value_not_rejected :
    addArgsNoValue.visibilityType = some "role" ∧
    addArgsNoValue.visibilityValue = none ∧
    addCommentSchemaAccepts addArgsNoValue = true ∧
    (buildAddCommentRequest addArgsNoValue).visibility = none ∧
    (handleAddComment addArgsNoValue demoClient srvAcceptComment).2 =
      [addCommentCall demoClient "PROJ-1" (buildAddCommentRequest addArgsNoValue)] ∧
    (handleAddComment addArgsNoValue demoClient srvAcceptComment).1 =
      Except.ok (projectAddedComment demoComment) :=
  ⟨rfl, rfl, rfl, rfl, rfl, rfl⟩

/-- Claim C3, counterexample: a create call whose `customFields` override
`summary`. The server accepts the create call and faithfully returns
exactly the created fields on the confirmation fetch, yet the summary in
the handler's response is the overridden one, not the requested summary
argument. -/
theorem create_issue_summary_override :
    srvCreateOverride.onCreateIssue
      (createCall demoClient (buildCreateFields createArgsOverride)) =
      Except.ok demoCreatedRef ∧
    srvCreateOverride.onGetIssue (getIssueCall demoClient demoCreatedRef.key none) =
      Except.ok demoCreatedIssue ∧
    demoCreatedIssue.fields = buildCreateFields createArgsOverride ∧
    createArgsOverride.summary = "Original summary" ∧
    (handleCreateIssue createArgsOverride demoClient srvCreateOverride).1 =
      Except.ok (projectCreatedIssue demoCreatedIssue) ∧
    (projectCreatedIssue demoCreatedIssue).summary = some (JValue.str "Overridden title") ∧
    ¬((projectCreatedIssue demoCreatedIssue).summary =
      some (JValue.str createArgsOverride.summary)) := by
  refine ⟨rfl, rfl, rfl, rfl, rfl, rfl, ?_⟩
  rw [show (projectCreatedIssue demoCreatedIssue).summary =
    some (JValue.str "Overridden title") from rfl]
  simp [createArgsOverride]

/-- Claim C3 (amended): for a create call whose `customFields` (if any)
override neither `summary` nor `project`, and a server that accepts the
create call and returns on the confirmation fetch exactly the fields that
were posted, the handler's response is the projection of the fetched issue,
its summary equals the requested summary, and the fetched issue's project
key equals the requested project key (the handler's projected response
itself carries no project field). -/
theorem create_issue_echoes_request (args : CreateIssueArgs) (c : JiraClientState)
    (srv : ServerBehavior) (ref : CreatedRef) (issue : JiraIssue)
    (hcreate : srv.onCreateIssue (createCall c (buildCreateFields args)) = Except.ok ref)
    (hfetch : srv.onGetIssue (getIssueCall c ref.key none) = Except.ok issue)
    (hfaithful : issue.fields = buildCreateFields args)
    (hsum : ∀ p ∈ args.customFields.getD [], p.1 ≠ "summary")
    (hproj : ∀ p ∈ args.customFields.getD [], p.1 ≠ "project") :
    (handleCreateIssue args c srv).1 = Except.ok (projectCreatedIssue issue) ∧
    (projectCreatedIssue issue).summary = some (JValue.str args.summary) ∧
    getField issue.fields "project" =
      some (JValue.obj [("key", JValue.str args.projectKey)]) := by
  have hbuild_sum : getField (buildCreateFields args) "summary" =
      some (JValue.str args.summary) := by
    cases hcfv : args.customFields with
    | none => simpa [buildCreateFields, hcfv] using builtin_summary args
    | some cf =>
      rw [hcfv] at hsum
      simp only [Option.getD_some] at hsum
      simp only [buildCreateFields, hcfv]
      rw [getField_objAssign_notMem _ _ _ hsum]
      exact builtin_summary args
  have hbuild_proj : getField (buildCreateFields args) "project" =
      some (JValue.obj [("key", JValue.str args.projectKey)]) := by
    cases hcfv : args.customFields with
    | none => simpa [buildCreateFields, hcfv] using builtin_project args
    | some cf =>
      rw [hcfv] at hproj
      simp only [Option.getD_some] at hproj
      simp only [buildCreateFields, hcfv]
      rw [getField_objAssign_notMem _ _ _ hproj]
      exact builtin_project args
  refine ⟨?_, ?_, ?_⟩
  · simp [handleCreateIssue, createIssue, getIssue, hcreate, hfetch, Except.map]
  · simp only [projectCreatedIssue]
    rw [hfaithful]
    exact hbuild_sum
  · rw [hfaithful]
    exact hbuild_proj

/-- Claim C3 witness: the amended statement applied to a create call without
custom fields, against a server faithfully echoing the created fields. -/
theorem create_issue_echoes_request_witness :
    (projectCreatedIssue (JiraIssue.mk "10002" "PROJ-9" "self9"
      (buildCreateFields createArgsAccountId))).summary =
      some (JValue.str "Assign to account id") ∧
    getField (buildCreateFields createArgsAccountId) "project" =
      some (JValue.obj [("key", JValue.str "PROJ")]) := by
  have h := create_issue_echoes_request createArgsAccountId demoClient
    { stubServer with
      onCreateIssue := fun _ => Except.ok (CreatedRef.mk "10002" "PROJ-9" "self9")
      onGetIssue := fun _ => Except.ok (JiraIssue.mk "10002" "PROJ-9" "self9"
        (buildCreateFields createArgsAccountId)) }
    (CreatedRef.mk "10002" "PROJ-9" "self9")
    (JiraIssue.mk "10002" "PROJ-9" "self9" (buildCreateFields createArgsAccountId))
    rfl rfl rfl (by simp [createArgsAccountId]) (by simp [createArgsAccountId])
  exact ⟨h.2.1, h.2.2⟩

/-- Claim C10: when `customFields` is supplied, the request's `fields`
object is the built-in fields object with the custom entries merged last
via `Object.assign`, so the (last) custom binding of any key — including a
built-in key such as `summary` or `project` — is the one found in the final
request. -/
theorem custom_fields_merge_last (args : CreateIssueArgs)
    (cf : List (String × JValue)) (h : args.customFields = some cf) :
    buildCreateFields args = objAssign (builtinCreateFields args) cf ∧
    (∀ k v, lastLookup cf k = some v → getField (buildCreateFields args) k = some v) := by
  have h1 : buildCreateFields args = objAssign (builtinCreateFields args) cf := by
    simp [buildCreateFields, h]
  exact ⟨h1, fun k v hv => h1 ▸ getField_objAssign_last _ _ _ _ hv⟩

/-- Claim C10 witness: the merge evaluated on arguments whose custom fields
collide with the built-in `summary`. -/
theorem custom_fields_merge_last_witness :
    buildCreateFields createArgsOverride =
      objAssign (builtinCreateFields createArgsOverride)
        [("summary", JValue.str "Overridden title")] ∧
    getField (buildCreateFields createArgsOverride) "summary" =
      some (JValue.str "Overridden title") :=
  ⟨(custom_fields_merge_last createArgsOverride _ rfl).1,
   (custom_fields_merge_last createArgsOverride _ rfl).2 "summary" _ rfl⟩

/-- Claim C7, counterexample: an issue-creation call supplying the empty
string as assignee. The empty string contains no `@` and is not longer than
20 characters, so the claim requires the legacy username field; but the
handler guards the assignee block with JavaScript truthiness, so no
assignee field is set at all. -/
theorem assignee_empty_string_dropped :
    createArgsEmptyAssignee.assignee = some "" ∧
    getField (buildCreateFields createArgsEmptyAssignee) "assignee" = none ∧
    ¬(getField (buildCreateFields createArgsEmptyAssignee) "assignee" =
      some (JValue.obj [("name", JValue.str "")])) := by
  refine ⟨rfl, rfl, ?_⟩
  rw [show getField (buildCreateFields createArgsEmptyAssignee) "assignee" = none from rfl]
  simp

/-- Claim C7 (amended): for a create call supplying a nonempty assignee
string, with `customFields` (if any) not themselves setting `assignee`, the
request carries the account-identifier field exactly when the string
contains `@` or is longer than 20 characters, and the legacy username field
otherwise; an empty assignee string results in no assignee field. -/
theorem assignee_heuristic (args : CreateIssueArgs) (a : String)
    (ha : args.assignee = some a) (hne : ¬a.isEmpty)
    (hcf : ∀ p ∈ args.customFields.getD [], p.1 ≠ "assignee") :
    getField (buildCreateFields args) "assignee" = some (assigneeField a) ∧
    ((a.data.contains '@' || a.length > 20) = true →
      assigneeField a = JValue.obj [("accountId", JValue.str a)]) ∧
    ((a.data.contains '@' || a.length > 20) = false →
      assigneeField a = JValue.obj [("name", JValue.str a)]) := by
  refine ⟨?_, ?_, ?_⟩
  · cases hcfv : args.customFields with
    | none => simpa [buildCreateFields, hcfv] using builtin_assignee args a ha hne
    | some cf =>
      rw [hcfv] at hcf
      simp only [Option.getD_some] at hcf
      simp only [buildCreateFields, hcfv]
      rw [getField_objAssign_notMem _ _ _ hcf]
      exact builtin_assignee args a ha hne
  · intro h
    unfold assigneeField
    rw [if_pos h]
  · intro h
    unfold assigneeField
    rw [if_neg (by rw [h]; exact Bool.false_ne_true)]

/-- Claim C7 witness: the heuristic evaluated on a 24-character account id
without an `@`. -/
theorem assignee_heuristic_witness :
    getField (buildCreateFields createArgsAccountId) "assignee" =
      some (assigneeField "5b10ac8d82e05b22cc7d4ef5") ∧
    assigneeField "5b10ac8d82e05b22cc7d4ef5" =
      JValue.obj [("accountId", JValue.str "5b10ac8d82e05b22cc7d4ef5")] := by
  have h := assignee_heuristic createArgsAccountId "5b10ac8d82e05b22cc7d4ef5" rfl
    (by decide) (by simp [createArgsAccountId])
  exact ⟨h.1, h.2.1 (by decide)⟩

/-- Claim C4: the dispatcher looks up the handler by the declared tool name
(one equation per registered name), fails with an unknown-tool error when
the name matches no registered tool, returns a successful handler result
verbatim, and converts any exception thrown anywhere in the call chain into
the structured error envelope with the `isError` flag set; `handleCallTool`
is a total function, so no call escapes as an uncaught exception. -/
theorem dispatcher_contract (env : HandlerEnv) (name : String) (args : JValue) :
    (name = "jira_search" → dispatchSwitch env name args = env.search args) ∧
    (name = "jira_get_issue" → dispatchSwitch env name args = env.getIssue args) ∧
    (name = "jira_create_issue" → dispatchSwitch env name args = env.createIssue args) ∧
    (name = "jira_update_issue" → dispatchSwitch env name args = env.updateIssue args) ∧
    (name = "jira_get_transitions" → dispatchSwitch env name args = env.getTransitions args) ∧
    (name = "jira_transition_issue" → dispatchSwitch env name args = env.transitionIssue args) ∧
    (name = "jira_get_comments" → dispatchSwitch env name args = env.getComments args) ∧
    (name = "jira_add_comment" → dispatchSwitch env name args = env.addComment args) ∧
    (name ∉ toolNames →
      handleCallTool env name args = errorEnvelope ("Unknown tool: " ++ name)) ∧
    (∀ r, dispatchSwitch env name args = Except.ok r → handleCallTool env name args = r) ∧
    (∀ e, dispatchSwitch env name args = Except.error e →
      handleCallTool env name args = errorEnvelope e ∧
      (errorEnvelope e).isError = true) := by
  refine ⟨?_, ?_, ?_, ?_, ?_, ?_, ?_, ?_, ?_, ?_, ?_⟩
  · intro h; subst h; rfl
  · intro h; subst h; rfl
  · intro h; subst h; rfl
  · intro h; subst h; rfl
  · intro h; subst h; rfl
  · intro h; subst h; rfl
  · intro h; subst h; rfl
  · intro h; subst h; rfl
  · intro h
    simp only [toolNames, List.mem_cons, List.not_mem_nil, or_false, not_or] at h
    obtain ⟨h1, h2, h3, h4, h5, h6, h7, h8⟩ := h
    simp [handleCallTool, dispatchSwitch, h1, h2, h3, h4, h5, h6, h7, h8]
  · intro r h
    simp [handleCallTool, h]
  · intro e h
    exact ⟨by simp [handleCallTool, h], rfl⟩

/-- Claim C4 witness: the dispatcher evaluated on a known tool that
succeeds, a known tool whose handler throws, and an unregistered name. -/
theorem dispatcher_contract_witness :
    handleCallTool demoEnv "jira_search" JValue.null = okToolResponse ∧
    handleCallTool demoEnv "jira_add_comment" JValue.null = errorEnvelope "boom" ∧
    (errorEnvelope "boom").isError = true ∧
    handleCallTool demoEnv "jira_delete_issue" JValue.null =
      errorEnvelope ("Unknown tool: " ++ "jira_delete_issue") := by
  obtain ⟨-, -, -, -, -, -, -, -, hu, -, -⟩ :=
    dispatcher_contract demoEnv "jira_delete_issue" JValue.null
  obtain ⟨-, -, -, -, -, -, -, -, -, hok, -⟩ :=
    dispatcher_contract demoEnv "jira_search" JValue.null
  obtain ⟨-, -, -, -, -, -, -, -, -, -, herr⟩ :=
    dispatcher_contract demoEnv "jira_add_comment" JValue.null
  exact ⟨hok okToolResponse rfl, (herr "boom" rfl).1, (herr "boom" rfl).2,
    hu (by decide)⟩

/-- Claim C5, counterexample: a pure transport failure (axios raised
without any HTTP response). The façade raises a single error, but its
message is the transport message prefixed with `Jira API Error:`; there is
no HTTP status at all, so the error cannot carry one. -/
theorem error_transport_no_status :
    handleError transportFailure = "Jira API Error: timeout of 30000ms exceeded" ∧
    failureStatus transportFailure = none ∧
    ¬∃ st, failureStatus transportFailure = some st ∧
      containsStr (handleError transportFailure) (toString st) = true := by
  refine ⟨rfl, rfl, ?_⟩
  rintro ⟨st, hst, -⟩
  rw [show failureStatus transportFailure = none from rfl] at hst
  exact Option.noConfusion hst

/-- Claim C5 (amended): a non-2xx response carrying an error body raises
exactly one error whose message is `Jira API Error (<status>):` followed by
all server-supplied messages concatenated with commas; an axios failure
without a response body raises one error carrying the transport message; a
non-axios error is rethrown unchanged. Each façade method surfaces the
converted error immediately and issues its calls exactly once — no retry,
no backoff (the call log of a failing call is the single attempted call;
for create, at most the create call and one fetch). -/
theorem facade_error_contract :
    (∀ msg st d, handleError (ClientFailure.axiosFailure msg (some (st, some d))) =
      "Jira API Error (" ++ toString st ++ "): " ++ String.intercalate ", "
        (d.errorMessages ++ d.errors.map (fun p => p.1 ++ ": " ++ p.2))) ∧
    (∀ msg st, handleError (ClientFailure.axiosFailure msg (some (st, none))) =
      "Jira API Error: " ++ msg) ∧
    (∀ msg, handleError (ClientFailure.axiosFailure msg none) = "Jira API Error: " ++ msg) ∧
    (∀ msg, handleError (ClientFailure.otherFailure msg) = msg) ∧
    (∀ c srv jql mr tok fs f, srv.onSearch (searchCall c jql mr tok fs) = Except.error f →
      searchIssues c srv jql mr tok fs =
        (Except.error (handleError f), [searchCall c jql mr tok fs])) ∧
    (∀ c srv k fs f, srv.onGetIssue (getIssueCall c k fs) = Except.error f →
      getIssue c srv k fs = (Except.error (handleError f), [getIssueCall c k fs])) ∧
    (∀ c srv F f, srv.onCreateIssue (createCall c F) = Except.error f →
      createIssue c srv F = (Except.error (handleError f), [createCall c F])) ∧
    (∀ c srv F ref f, srv.onCreateIssue (createCall c F) = Except.ok ref →
      srv.onGetIssue (getIssueCall c ref.key none) = Except.error f →
      createIssue c srv F =
        (Except.error (handleError f), [createCall c F, getIssueCall c ref.key none])) ∧
    (∀ c srv k F f, srv.onUpdateIssue (updateCall c k F) = Except.error f →
      updateIssue c srv k F = (Except.error (handleError f), [updateCall c k F])) ∧
    (∀ c srv k f, srv.onGetTransitions (transitionsCall c k) = Except.error f →
      getTransitions c srv k = (Except.error (handleError f), [transitionsCall c k])) ∧
    (∀ c srv k req f, srv.onTransitionIssue (transitionCall c k req) = Except.error f →
      transitionIssue c srv k req =
        (Except.error (handleError f), [transitionCall c k req])) ∧
    (∀ c srv k f, srv.onGetComments (commentsCall c k) = Except.error f →
      getComments c srv k = (Except.error (handleError f), [commentsCall c k])) ∧
    (∀ c srv k req f, srv.onAddComment (addCommentCall c k req) = Except.error f →
      addComment c srv k req = (Except.error (handleError f), [addCommentCall c k req])) := by
  refine ⟨fun msg st d => rfl, fun msg st => rfl, fun msg => rfl, fun msg => rfl,
    ?_, ?_, ?_, ?_, ?_, ?_, ?_, ?_, ?_⟩
  · intro c srv jql mr tok fs f h
    simp [searchIssues, h]
  · intro c srv k fs f h
    simp [getIssue, h]
  · intro c srv F f h
    simp [createIssue, h]
  · intro c srv F ref f h1 h2
    simp [createIssue, getIssue, h1, h2]
  · intro c srv k F f h
    simp [updateIssue, h]
  · intro c srv k f h
    simp [getTransitions, h]
  · intro c srv k req f h
    simp [transitionIssue, h]
  · intro c srv k f h
    simp [getComments, h]
  · intro c srv k req f h
    simp [addComment, h]

/-- Claim C5 witness: the failing search evaluated against a server that
rejects it with a 400 response carrying both kinds of server messages. -/
theorem facade_error_contract_witness :
    searchIssues demoClient srvSearchFail "project = PROJ" 50 none none =
      (Except.error (handleError demoApiFailure),
       [searchCall demoClient "project = PROJ" 50 none none]) ∧
    handleError demoApiFailure =
      "Jira API Error (400): The request is invalid, project: project is required" := by
  obtain ⟨hmsg, -, -, -, hsearch, -⟩ := facade_error_contract
  refine ⟨hsearch demoClient srvSearchFail "project = PROJ" 50 none none demoApiFailure rfl, ?_⟩
  rw [show demoApiFailure = ClientFailure.axiosFailure "Request failed with status code 400"
    (some (400, some (JiraErrorResponse.mk ["The request is invalid"]
      [("project", "project is required")]))) from rfl]
  rw [hmsg]
  rfl

/-- Claim C6: the façade create operation issues exactly two HTTP calls —
the POST that creates the issue followed by the GET that fetches the
created key — and the entity it returns is the one obtained from that
second call; every other façade method issues exactly one HTTP call,
whether it succeeds or fails. -/
theorem facade_call_counts :
    (∀ c srv F ref, srv.onCreateIssue (createCall c F) = Except.ok ref →
      (createIssue c srv F).2 = [createCall c F, getIssueCall c ref.key none]) ∧
    (∀ c srv F ref issue, srv.onCreateIssue (createCall c F) = Except.ok ref →
      srv.onGetIssue (getIssueCall c ref.key none) = Except.ok issue →
      (createIssue c srv F).1 = Except.ok issue) ∧
    (∀ c srv jql mr tok fs, (searchIssues c srv jql mr tok fs).2.length = 1) ∧
    (∀ c srv k fs, (getIssue c srv k fs).2.length = 1) ∧
    (∀ c srv k F, (updateIssue c srv k F).2.length = 1) ∧
    (∀ c srv k, (getTransitions c srv k).2.length = 1) ∧
    (∀ c srv k req, (transitionIssue c srv k req).2.length = 1) ∧
    (∀ c srv k, (getComments c srv k).2.length = 1) ∧
    (∀ c srv k req, (addComment c srv k req).2.length = 1) := by
  refine ⟨?_, ?_, ?_, ?_, ?_, ?_, ?_, ?_, ?_⟩
  · intro c srv F ref h
    cases hg : srv.onGetIssue (getIssueCall c ref.key none) <;>
      simp [createIssue, getIssue, h, hg]
  · intro c srv F ref issue h hg
    simp [createIssue, getIssue, h, hg]
  · intro c srv jql mr tok fs
    cases h : srv.onSearch (searchCall c jql mr tok fs) <;> simp [searchIssues, h]
  · intro c srv k fs
    cases h : srv.onGetIssue (getIssueCall c k fs) <;> simp [getIssue, h]
  · intro c srv k F
    cases h : srv.onUpdateIssue (updateCall c k F) <;> simp [updateIssue, h]
  · intro c srv k
    cases h : srv.onGetTransitions (transitionsCall c k) <;> simp [getTransitions, h]
  · intro c srv k req
    cases h : srv.onTransitionIssue (transitionCall c k req) <;> simp [transitionIssue, h]
  · intro c srv k
    cases h : srv.onGetComments (commentsCall c k) <;> simp [getComments, h]
  · intro c srv k req
    cases h : srv.onAddComment (addCommentCall c k req) <;> simp [addComment, h]

/-- Claim C6 witness: the create flow evaluated against the concrete
server: two calls, create then fetch, and the returned entity is the one
the fetch produced. -/
theorem facade_call_counts_witness :
    (createIssue demoClient srvCreateOverride (buildCreateFields createArgsOverride)).2 =
      [createCall demoClient (buildCreateFields createArgsOverride),
       getIssueCall demoClient demoCreatedRef.key none] ∧
    (createIssue demoClient srvCreateOverride (buildCreateFields createArgsOverride)).1 =
      Except.ok demoCreatedIssue ∧
    (searchIssues demoClient stubServer "project = PROJ" 50 none none).2.length = 1 := by
  obtain ⟨h2calls, hentity, hsearch, -⟩ := facade_call_counts
  exact ⟨h2calls demoClient srvCreateOverride _ demoCreatedRef rfl,
    hentity demoClient srvCreateOverride _ demoCreatedRef demoCreatedIssue rfl rfl,
    hsearch demoClient stubServer "project = PROJ" 50 none none⟩


theorem lookupParam_searchCall (c : JiraClientState) (jql : String) (mr : Nat)
    (tok : Option String) (fields : Option (List String)) :
    lookupParam (searchCall c jql mr tok fields) "fields" =
      some (match fields with
        | some fs =>
          if fs.length > 0 then String.intercalate "," fs else defaultSearchFields
        | none => defaultSearchFields) := by
  rcases tok with _ | t
  · simp [searchCall, lookupParam]
  · by_cases ht : t.isEmpty <;> simp [searchCall, lookupParam, ht]

/-- Claim C8: the search façade issues exactly the constructed call, whose
`fields` query parameter is the fixed minimal default set (key, summary,
status, issuetype, assignee, reporter, created, updated, priority, project)
when the field list is omitted or empty, and the comma-joined supplied list
when it is non-empty. -/
theorem search_field_defaults (c : JiraClientState) (srv : ServerBehavior)
    (jql : String) (mr : Nat) (tok : Option String) (fields : Option (List String)) :
    (searchIssues c srv jql mr tok fields).2 = [searchCall c jql mr tok fields] ∧
    (fields = none →
      lookupParam (searchCall c jql mr tok fields) "fields" = some defaultSearchFields) ∧
    (∀ fs, fields = some fs → fs.length = 0 →
      lookupParam (searchCall c jql mr tok fields) "fields" = some defaultSearchFields) ∧
    (∀ fs, fields = some fs → 0 < fs.length →
      lookupParam (searchCall c jql mr tok fields) "fields" =
        some (String.intercalate "," fs)) ∧
    defaultSearchFields = String.intercalate ","
      ["key", "summary", "status", "issuetype", "assignee", "reporter", "created",
       "updated", "priority", "project"] := by
  refine ⟨?_, ?_, ?_, ?_, by rfl⟩
  · cases h : srv.onSearch (searchCall c jql mr tok fields) <;> simp [searchIssues, h]
  · intro h
    subst h
    simpa using lookupParam_searchCall c jql mr tok none
  · intro fs h hlen
    subst h
    simpa [hlen] using lookupParam_searchCall c jql mr tok (some fs)
  · intro fs h hlen
    subst h
    simpa [Nat.not_eq_zero_of_lt hlen, hlen] using lookupParam_searchCall c jql mr tok (some fs)

/-- Claim C8 witness: the `fields` parameter evaluated for an omitted list,
an empty list, and the explicit list `key,status`. -/
theorem search_field_defaults_witness :
    lookupParam (searchCall demoClient "project = PROJ" 50 none none) "fields" =
      some defaultSearchFields ∧
    lookupParam (searchCall demoClient "project = PROJ" 50 none (some [])) "fields" =
      some defaultSearchFields ∧
    lookupParam (searchCall demoClient "project = PROJ" 50 none (some ["key", "status"]))
      "fields" = some (String.intercalate "," ["key", "status"]) := by
  obtain ⟨-, hnone, -, -, -⟩ :=
    search_field_defaults demoClient stubServer "project = PROJ" 50 none none
  obtain ⟨-, -, hempty, -, -⟩ :=
    search_field_defaults demoClient stubServer "project = PROJ" 50 none (some [])
  obtain ⟨-, -, -, hsome, -⟩ :=
    search_field_defaults demoClient stubServer "project = PROJ" 50 none
      (some ["key", "status"])
  exact ⟨hnone rfl, hempty [] rfl rfl, hsome ["key", "status"] rfl (by decide)⟩

/-- Claim C9: the client façade holds no durable state: with the client
configuration threaded explicitly through every operation, each operation
returns the configuration unchanged (no `JiraClient` method body writes any
field), and a sequence of operations produces exactly the results of the
same operations run independently against the initial state — every pair of
calls is independent. -/
theorem facade_stateless (srv : ServerBehavior) (c : JiraClientState) :
    (∀ op, (facadeStep srv c op).2 = c) ∧
    (∀ ops, runOps srv c ops = (ops.map (fun op => (facadeStep srv c op).1), c)) := by
  have hstep : ∀ op, (facadeStep srv c op).2 = c := by
    intro op
    cases op <;> rfl
  refine ⟨hstep, ?_⟩
  intro ops
  induction ops with
  | nil => rfl
  | cons op rest ih =>
    simp only [runOps, hstep, ih, List.map_cons]
